import Mathlib

/-!
# Formal model of the MyFatoorah payment-gateway module

Shallow embedding of the module's reconciliation core:

* `models/payment_provider.py` — the webhook signature verifier
  (`_myfatoorah_verify_webhook_signature`); the HTTP transport of
  `_myfatoorah_make_request` is abstracted as an oracle returning either a
  normalized gateway error or the response's `Data` payload.
* `myfatoorah_gateway_custom/models/payment_transaction.py` — invoice
  creation (`_get_specific_processing_values`, response-handling part),
  the transaction locator (`_get_tx_from_notification_data`) and the
  status reconciler (`_process_notification_data`).
* `controllers/main.py` — the webhook endpoint (`myfatoorah_webhook`).

Python dictionaries carrying optional string values are modelled with
`Option String`; Python truthiness of such values is `pyTruthy`.  The
generic lifecycle transition primitives (`_set_done`, `_set_pending`,
`_set_canceled`, `_set_error`) are external collaborators, modelled from
the spec.  The HMAC-SHA256 hex digest is a library primitive and is taken
as an abstract function parameter.
-/

namespace MyFatoorah

/-- Python truthiness of an optional string value (`None` and `''` are falsy). -/
def pyTruthy : Option String → Bool
  | none => false
  | some s => !(s == "")

/-- Python `a or b` on strings: `a` when non-empty, else `b`. -/
def pyOr (a b : String) : String := if a == "" then b else a

/-- Python `opt or b` where `opt` is an optional string and `b` a string. -/
def pyOrOpt (a : Option String) (b : String) : String := pyOr (a.getD "") b

/-- Python `str.lower()` as applied to the gateway's ASCII status tokens:
per-character case folding. -/
def pyLower (s : String) : String := String.mk (s.data.map Char.toLower)

/-- Python's `%s` rendering of an optional string (`None` prints as "None"). -/
def pyShowOpt : Option String → String
  | none => "None"
  | some s => s

/-- The five transaction lifecycle states (spec §3). -/
inductive TxState
  | draft
  | pending
  | done
  | canceled
  | error
deriving Repr, DecidableEq

/-- The fields of a `payment.transaction` record that the module reads or
writes.  `provider_reference` is an Odoo `Char` field: the empty string
models the unset (`False`) value. -/
structure Tx where
  reference : String
  provider_reference : String
  provider_code : String
  state : TxState
  state_message : String
deriving Repr, DecidableEq

/-- A state-transition primitive invocation performed by the reconciler,
together with the message argument it was given. -/
inductive AppliedTx
  | done
  | pending
  | canceled (msg : String)
  | error (msg : String)
deriving Repr, DecidableEq

/-- Modelled from the spec: the generic lifecycle primitive `setDone()`
(§6); per §4.4 "calling 'mark done' on an already-done transaction must be
a no-op at the generic-lifecycle layer". -/
def setDone (t : Tx) : Tx :=
  if t.state = .done then t else { t with state := .done }

/-- Modelled from the spec: the generic lifecycle primitive `setPending()`
(§6), guarded as a no-op on repeated application (§3, §4.4). -/
def setPending (t : Tx) : Tx :=
  if t.state = .pending then t else { t with state := .pending }

/-- Modelled from the spec: the generic lifecycle primitive
`setCanceled(message)` (§6), guarded as a no-op on repeated application. -/
def setCanceled (t : Tx) (msg : String) : Tx :=
  if t.state = .canceled then t else { t with state := .canceled, state_message := msg }

/-- Modelled from the spec: the generic lifecycle primitive
`setError(message)` (§6), guarded as a no-op on repeated application. -/
def setError (t : Tx) (msg : String) : Tx :=
  if t.state = .error then t else { t with state := .error, state_message := msg }

/-- Apply one recorded transition primitive to a transaction. -/
def applyTransition (t : Tx) : AppliedTx → Tx
  | .done => setDone t
  | .pending => setPending t
  | .canceled m => setCanceled t m
  | .error m => setError t m

/-- One entry of the `InvoiceTransactions` list of a `GetPaymentStatus`
response (the subset of fields the module reads). -/
structure InvoiceTransactionEntry where
  TransactionStatus : Option String
  Error : Option String
  ErrorCode : Option String
deriving Repr, DecidableEq

/-- The `Data` payload of a successful `GetPaymentStatus` response (the
subset of fields the module reads). -/
structure StatusData where
  InvoiceStatus : Option String
  InvoiceId : Option String
  CustomerReference : Option String
  InvoiceTransactions : List InvoiceTransactionEntry
deriving Repr, DecidableEq

/-- A notification payload (`notification_data`): the fields produced by
the redirect endpoints and the webhook dispatcher.  The `status` field is
synthesized by the redirect endpoints (`'success'` / `'error'`). -/
structure NotifData where
  CustomerReference : Option String
  paymentId : Option String
  InvoiceId : Option String
  status : Option String
  webhook_event : Option String
deriving Repr, DecidableEq

/-- The gateway status-fetch oracle: abstracts
`provider._myfatoorah_make_request('/v2/GetPaymentStatus', {'Key': k, 'KeyType': kt})`.
`Except.error` models the `ValidationError` that `_myfatoorah_make_request`
raises on timeout / connection failure / bad response / business
rejection; `Except.ok` carries the response's `Data`. -/
def GatewayOracle := String → String → Except String StatusData

/-- Message of `payment_transaction.py` line 252. -/
def missingIdMessage : String :=
  "MyFatoorah: Missing payment identification in the notification."

/-- Message of `payment_transaction.py` line 268. -/
def verifyFailedMessage : String :=
  "MyFatoorah: Failed to verify payment status."

/-- The status-to-transition mapping of `_process_notification_data`
(lines 299–325), with `invoice_status` and `tx_status` already lowercased
and `latest` the last `InvoiceTransactions` entry when one exists. -/
def statusTransition (invoice_status tx_status : String)
    (latest : Option InvoiceTransactionEntry) : AppliedTx :=
  if invoice_status == "paid" || tx_status == "succss" then
    .done
  else if invoice_status == "pending" || invoice_status == "initiated"
      || tx_status == "pending" || tx_status == "initiated" then
    .pending
  else if invoice_status == "expired" || invoice_status == "canceled"
      || tx_status == "expired" || tx_status == "canceled" then
    .canceled ("MyFatoorah: Payment was " ++ pyOr invoice_status tx_status ++ ".")
  else if invoice_status == "failed" || tx_status == "failed" then
    let error_msg :=
      match latest with
      | some l => pyOr (l.Error.getD "") (l.ErrorCode.getD "")
      | none => ""
    .error ("MyFatoorah: Payment failed. " ++ error_msg)
  else
    .error ("MyFatoorah: Received unknown payment status: "
      ++ pyOr (pyOr invoice_status tx_status) "unknown")

/-- Status extraction of `_process_notification_data` lines 278–297
followed by the mapping of lines 299–325: `invoice_status` is the
lowercased `InvoiceStatus`, `tx_status` is the lowercased last entry's
`TransactionStatus` when `InvoiceTransactions` is non-empty, else
`invoice_status`. -/
def statusDataTransition (sd : StatusData) : AppliedTx :=
  let invoice_status := pyLower (sd.InvoiceStatus.getD "")
  let latest := sd.InvoiceTransactions.getLast?
  let tx_status :=
    match latest with
    | some l => pyLower (l.TransactionStatus.getD "")
    | none => invoice_status
  statusTransition invoice_status tx_status latest

/-- The gateway's literal transaction-level success token recognized at
`payment_transaction.py` line 300 (spec §9 flags the spelling as a known
upstream vocabulary quirk). -/
def successToken : String := "succss"

/-- The status resolution as claim C1 (spec §4.4 steps 4–5) states it:
derive the effective status case-insensitively — the last entry's
`TransactionStatus` when `InvoiceTransactions` is non-empty, otherwise
`InvoiceStatus` — then, first matching clause wins: invoice-level `paid`
or an effective (transaction-level) status equal to the gateway's literal
success token → done; `pending`/`initiated` at either level → pending;
`expired`/`canceled` at either level → canceled, naming the observed
status; `failed` at either level → error, with a message built from the
latest entry's `Error` or `ErrorCode`; anything else → error, naming the
unrecognized status. -/
def claimStatusTransition (sd : StatusData) : AppliedTx :=
  let invoiceLevel := pyLower (sd.InvoiceStatus.getD "")
  let effective :=
    match sd.InvoiceTransactions.getLast? with
    | some l => pyLower (l.TransactionStatus.getD "")
    | none => invoiceLevel
  if invoiceLevel == "paid" || effective == successToken then
    .done
  else if invoiceLevel == "pending" || invoiceLevel == "initiated"
      || effective == "pending" || effective == "initiated" then
    .pending
  else if invoiceLevel == "expired" || invoiceLevel == "canceled"
      || effective == "expired" || effective == "canceled" then
    .canceled ("MyFatoorah: Payment was " ++ pyOr invoiceLevel effective ++ ".")
  else if invoiceLevel == "failed" || effective == "failed" then
    .error ("MyFatoorah: Payment failed. " ++
      (match sd.InvoiceTransactions.getLast? with
        | some l => pyOr (l.Error.getD "") (l.ErrorCode.getD "")
        | none => ""))
  else
    .error ("MyFatoorah: Received unknown payment status: "
      ++ pyOr (pyOr invoiceLevel effective) "unknown")

/-- The status-query key selection of `_process_notification_data` lines
232–255: prefer `paymentId` (`KeyType='PaymentId'`), else
`notification_data.get('InvoiceId') or self.provider_reference`
(`KeyType='InvoiceId'`), else none. -/
def statusKey (tx : Tx) (nd : NotifData) : Option (String × String) :=
  if pyTruthy nd.paymentId then
    some (nd.paymentId.getD "", "PaymentId")
  else if pyOrOpt nd.InvoiceId tx.provider_reference ≠ "" then
    some (pyOrOpt nd.InvoiceId tx.provider_reference, "InvoiceId")
  else
    none

/-- The backfill of `_process_notification_data` lines 280–283:
`if invoice_id_resp and not self.provider_reference: self.provider_reference = str(invoice_id_resp)`. -/
def backfillProviderReference (tx : Tx) (sd : StatusData) : Tx :=
  if pyTruthy sd.InvoiceId && tx.provider_reference == "" then
    { tx with provider_reference := sd.InvoiceId.getD "" }
  else
    tx

/-- The result of one reconciler run: the updated transaction, the list of
transition-primitive invocations it performed (in order), and the number
of `GetPaymentStatus` calls it made. -/
structure ProcResult where
  tx : Tx
  applied : List AppliedTx
  gatewayCalls : Nat
deriving Repr, DecidableEq

/-- `_process_notification_data` (`payment_transaction.py` lines 220–325).
The `super()` call touches no MyFatoorah state; the guard on
`provider_code` (line 229) returns without any transition. -/
def processNotificationData (g : GatewayOracle) (tx : Tx) (nd : NotifData) : ProcResult :=
  if tx.provider_code ≠ "myfatoorah" then ⟨tx, [], 0⟩
  else
    match statusKey tx nd with
    | none => ⟨setError tx missingIdMessage, [.error missingIdMessage], 0⟩
    | some (key, keyType) =>
      match g key keyType with
      | .error _ => ⟨setError tx verifyFailedMessage, [.error verifyFailedMessage], 1⟩
      | .ok sd =>
        let tx1 := backfillProviderReference tx sd
        let trans := statusDataTransition sd
        ⟨applyTransition tx1 trans, [trans], 1⟩

/-- The fields of a MyFatoorah `payment.provider` record that this module
reads.  Odoo `Char` fields may be unset, hence `Option String`. -/
structure MFProvider where
  name : String
  code : String
  state : String
  myfatoorah_webhook_enabled : Bool
  myfatoorah_webhook_secret : Option String
deriving Repr, DecidableEq

/-- The `search([('reference','=',r), ('provider_code','=','myfatoorah')], limit=1)`
lookup of the transaction store (tier 1 of the locator, lines 163–169). -/
def searchRef (store : List Tx) (r : String) : Option Tx :=
  store.find? (fun t => t.reference == r && t.provider_code == "myfatoorah")

/-- The `search([('provider_reference','=',str(i)), ('provider_code','=','myfatoorah')], limit=1)`
lookup of the transaction store (tier 2 of the locator, lines 171–178). -/
def searchProvRef (store : List Tx) (i : String) : Option Tx :=
  store.find? (fun t => t.provider_reference == i && t.provider_code == "myfatoorah")

/-- The per-provider gateway oracle used by tier 3 of the locator. -/
def LocatorOracle := MFProvider → String → Except String StatusData

/-- The tier-3 loop of `_get_tx_from_notification_data` (lines 181–212):
for each candidate provider, call `GetPaymentStatus(paymentId, 'PaymentId')`;
on success retry tiers 1–2 against the response's `CustomerReference` /
`InvoiceId`; a raising provider is logged and skipped (`continue`).
Returns the first match together with the number of gateway calls made. -/
def lookupViaGateway (store : List Tx) (g : LocatorOracle) (pid : String) :
    List MFProvider → Option Tx × Nat
  | [] => (none, 0)
  | p :: rest =>
    match g p pid with
    | .error _ =>
      let r := lookupViaGateway store g pid rest
      (r.1, r.2 + 1)
    | .ok sd =>
      let byRef :=
        if pyTruthy sd.CustomerReference then
          searchRef store (sd.CustomerReference.getD "")
        else none
      match byRef with
      | some t => (some t, 1)
      | none =>
        let byInv :=
          if pyTruthy sd.InvoiceId then
            searchProvRef store (sd.InvoiceId.getD "")
          else none
        match byInv with
        | some t => (some t, 1)
        | none =>
          let r := lookupViaGateway store g pid rest
          (r.1, r.2 + 1)

/-- `_get_tx_from_notification_data` (`payment_transaction.py` lines
139–218), for the `myfatoorah` branch in which the generic `super()`
lookup found no single transaction.  `providers` is the full provider
table; the tier-3 candidate set is the
`('code','=','myfatoorah'), ('state','in',['enabled','test'])` search
(lines 182–185).  Returns the located transaction (or the
`ValidationError` of lines 214–218) and the number of gateway calls. -/
def getTxFromNotificationData (store : List Tx) (providers : List MFProvider)
    (g : LocatorOracle) (nd : NotifData) : Except String Tx × Nat :=
  let reference := nd.CustomerReference
  let payment_id := nd.paymentId
  let invoice_id := nd.InvoiceId
  let tier1 := if pyTruthy reference then searchRef store (reference.getD "") else none
  match tier1 with
  | some t => (.ok t, 0)
  | none =>
    let tier2 := if pyTruthy invoice_id then searchProvRef store (invoice_id.getD "") else none
    match tier2 with
    | some t => (.ok t, 0)
    | none =>
      let notFound : Except String Tx :=
        .error ("MyFatoorah: No transaction found matching the notification data (reference: "
          ++ pyShowOpt reference ++ ", paymentId: " ++ pyShowOpt payment_id
          ++ ", invoiceId: " ++ pyShowOpt invoice_id ++ ").")
      if pyTruthy payment_id then
        let candidates := providers.filter
          (fun p => p.code == "myfatoorah" && (p.state == "enabled" || p.state == "test"))
        match lookupViaGateway store g (payment_id.getD "") candidates with
        | (some t, n) => (.ok t, n)
        | (none, n) => (notFound, n)
      else
        (notFound, 0)

/-- `_myfatoorah_verify_webhook_signature` (`payment_provider.py` lines
221–254).  `hmacSha256Hex secret body` abstracts
`hmac.new(key=secret.encode('utf-8'), msg=raw_body, digestmod=hashlib.sha256).hexdigest()`;
`hmac.compare_digest` is functionally string equality (its constant-time
execution is a timing property outside this embedding). -/
def myfatoorahVerifyWebhookSignature (hmacSha256Hex : String → List Nat → String)
    (p : MFProvider) (raw_body : List Nat) (signature : String) : Bool :=
  if !pyTruthy p.myfatoorah_webhook_secret then
    false
  else
    hmacSha256Hex (p.myfatoorah_webhook_secret.getD "") raw_body == signature

/-- The webhook candidate-provider search of `controllers/main.py` lines
166–170: `('code','=','myfatoorah'), ('state','in',['enabled','test']),
('myfatoorah_webhook_enabled','=',True)`. -/
def webhookCandidates (providers : List MFProvider) : List MFProvider :=
  providers.filter (fun p =>
    p.code == "myfatoorah" && (p.state == "enabled" || p.state == "test")
      && p.myfatoorah_webhook_enabled)

/-- An inbound webhook request as the endpoint sees it: whether the raw
body parses as JSON, the raw body bytes, and the signature header value
(the empty string when the header is absent, per lines 157–160). -/
structure WebhookRequest where
  jsonOk : Bool
  raw_body : List Nat
  signature : String

/-- `myfatoorah_webhook` (`controllers/main.py` lines 125–218), returning
the HTTP status code and message of the JSON response.  The event
dispatch `_process_webhook_event` is abstracted by its outcome
`dispatch` (`Except.error` models a raised exception, caught at lines
203–213). -/
def myfatoorahWebhook (hmacSha256Hex : String → List Nat → String)
    (providers : List MFProvider) (req : WebhookRequest)
    (dispatch : Except String Unit) : Nat × String :=
  if !req.jsonOk then
    (400, "Invalid JSON body")
  else
    let candidates := webhookCandidates providers
    if candidates.isEmpty then
      (400, "No active webhook provider")
    else
      match candidates.find?
          (fun p => myfatoorahVerifyWebhookSignature hmacSha256Hex p req.raw_body req.signature) with
      | none => (401, "Invalid signature")
      | some _ =>
        match dispatch with
        | .error _ => (200, "Event received but processing failed")
        | .ok _ => (200, "Event processed successfully")

/-- The `Data` payload of a `SendPayment` response (the subset of fields
`_get_specific_processing_values` reads). -/
structure SendPaymentData where
  InvoiceURL : Option String
  InvoiceId : Option String
deriving Repr, DecidableEq

/-- The response-handling part of `_get_specific_processing_values`
(`payment_transaction.py` lines 114–135); the payload construction of
lines 34–111 feeds only the request and is elided.  Returns the updated
transaction together with either the `ValidationError` of lines 119–122
or the invoice URL returned as `api_url`. -/
def getSpecificProcessingValues (tx : Tx) (rd : SendPaymentData) :
    Tx × Except String String :=
  if !pyTruthy rd.InvoiceURL then
    (tx, .error "MyFatoorah: No invoice URL received from the payment gateway.")
  else
    ({ tx with provider_reference :=
        if pyTruthy rd.InvoiceId then rd.InvoiceId.getD "" else "" },
      .ok (rd.InvoiceURL.getD ""))

/-- Discriminant for `Except`: `true` on `.error`. -/
def exceptIsError {ε α : Type} : Except ε α → Bool
  | .error _ => true
  | .ok _ => false

/-! ## Helper lemmas -/

lemma setDone_provider_reference (t : Tx) :
    (setDone t).provider_reference = t.provider_reference := by
  unfold setDone; split <;> rfl

lemma setPending_provider_reference (t : Tx) :
    (setPending t).provider_reference = t.provider_reference := by
  unfold setPending; split <;> rfl

lemma setCanceled_provider_reference (t : Tx) (m : String) :
    (setCanceled t m).provider_reference = t.provider_reference := by
  unfold setCanceled; split <;> rfl

lemma setError_provider_reference (t : Tx) (m : String) :
    (setError t m).provider_reference = t.provider_reference := by
  unfold setError; split <;> rfl

lemma applyTransition_provider_reference (t : Tx) (a : AppliedTx) :
    (applyTransition t a).provider_reference = t.provider_reference := by
  cases a <;>
    simp [applyTransition, setDone_provider_reference, setPending_provider_reference,
      setCanceled_provider_reference, setError_provider_reference]

lemma setDone_provider_code (t : Tx) :
    (setDone t).provider_code = t.provider_code := by
  unfold setDone; split <;> rfl

lemma setPending_provider_code (t : Tx) :
    (setPending t).provider_code = t.provider_code := by
  unfold setPending; split <;> rfl

lemma setCanceled_provider_code (t : Tx) (m : String) :
    (setCanceled t m).provider_code = t.provider_code := by
  unfold setCanceled; split <;> rfl

lemma setError_provider_code (t : Tx) (m : String) :
    (setError t m).provider_code = t.provider_code := by
  unfold setError; split <;> rfl

lemma applyTransition_provider_code (t : Tx) (a : AppliedTx) :
    (applyTransition t a).provider_code = t.provider_code := by
  cases a <;>
    simp [applyTransition, setDone_provider_code, setPending_provider_code,
      setCanceled_provider_code, setError_provider_code]

lemma setError_state (t : Tx) (m : String) : (setError t m).state = .error := by
  unfold setError; split
  · assumption
  · rfl

lemma setDone_idem (t : Tx) : setDone (setDone t) = setDone t := by
  by_cases h : t.state = TxState.done <;> simp [setDone, h]

lemma setPending_idem (t : Tx) : setPending (setPending t) = setPending t := by
  by_cases h : t.state = TxState.pending <;> simp [setPending, h]

lemma setCanceled_idem (t : Tx) (m : String) :
    setCanceled (setCanceled t m) m = setCanceled t m := by
  by_cases h : t.state = TxState.canceled <;> simp [setCanceled, h]

lemma setError_idem (t : Tx) (m : String) :
    setError (setError t m) m = setError t m := by
  by_cases h : t.state = TxState.error <;> simp [setError, h]

lemma applyTransition_idem (t : Tx) (a : AppliedTx) :
    applyTransition (applyTransition t a) a = applyTransition t a := by
  cases a <;>
    simp [applyTransition, setDone_idem, setPending_idem, setCanceled_idem, setError_idem]

lemma backfill_provider_code (t : Tx) (sd : StatusData) :
    (backfillProviderReference t sd).provider_code = t.provider_code := by
  unfold backfillProviderReference; split <;> rfl

lemma pyTruthy_getD {o : Option String} (h : pyTruthy o = true) : o.getD "" ≠ "" := by
  cases o with
  | none => simp [pyTruthy] at h
  | some s => simpa [pyTruthy] using h

lemma pyOrOpt_of_truthy {o : Option String} (h : pyTruthy o = true) (b : String) :
    pyOrOpt o b = o.getD "" := by
  have := pyTruthy_getD h
  simp [pyOrOpt, pyOr, this]

lemma backfill_of_pr_ne (t : Tx) (sd : StatusData) (h : t.provider_reference ≠ "") :
    backfillProviderReference t sd = t := by
  simp [backfillProviderReference, h]

lemma backfill_of_not_truthy (t : Tx) (sd : StatusData)
    (h : pyTruthy sd.InvoiceId = false) : backfillProviderReference t sd = t := by
  simp [backfillProviderReference, h]

lemma backfill_pr_ne (t : Tx) (sd : StatusData) (hi : pyTruthy sd.InvoiceId = true) :
    (backfillProviderReference t sd).provider_reference ≠ "" := by
  by_cases hp : t.provider_reference = ""
  · simpa [backfillProviderReference, hi, hp] using pyTruthy_getD hi
  · simp [backfillProviderReference, hp]

/-- After one backfill, `provider_reference` is non-empty whenever the
response carries a truthy `InvoiceId`, so a second backfill with the same
response is a no-op. -/
lemma backfill_after (t : Tx) (sd : StatusData) (a : AppliedTx) :
    backfillProviderReference (applyTransition (backfillProviderReference t sd) a) sd
      = applyTransition (backfillProviderReference t sd) a := by
  by_cases hi : pyTruthy sd.InvoiceId = true
  · apply backfill_of_pr_ne
    rw [applyTransition_provider_reference]
    exact backfill_pr_ne t sd hi
  · exact backfill_of_not_truthy _ _ (by simpa using hi)

lemma statusKey_congr (tx tx2 : Tx) (nd : NotifData)
    (h : tx2.provider_reference = tx.provider_reference) :
    statusKey tx2 nd = statusKey tx nd := by
  simp [statusKey, h]

/-! ## Claim C6 — the signature verifier -/

/-- **C6.** The signature verifier returns `true` exactly when the
configured webhook secret is non-empty and the supplied signature equals
the hex-encoded HMAC-SHA256 of the raw body keyed by that secret; for
every empty or unset secret it returns `false` regardless of the supplied
signature (the right-hand side is then unsatisfiable).  The function is
total, i.e. never throws. -/
theorem verify_webhook_signature_correct
    (hmacSha256Hex : String → List Nat → String) (p : MFProvider)
    (raw_body : List Nat) (signature : String) :
    myfatoorahVerifyWebhookSignature hmacSha256Hex p raw_body signature = true
      ↔ pyTruthy p.myfatoorah_webhook_secret = true
        ∧ hmacSha256Hex (p.myfatoorah_webhook_secret.getD "") raw_body = signature := by
  unfold myfatoorahVerifyWebhookSignature
  by_cases h : pyTruthy p.myfatoorah_webhook_secret = true
  · simp [h]
  · simp [h]

/-! ## Claim C8 — the synthesized `status` field is ignored -/

/-- **C8.** The reconciler's result (final transaction, applied
transitions, and gateway calls) depends only on the other payload fields
and the gateway oracle, never on the `status` field synthesized by the
redirect endpoints: two runs whose payloads differ only in that field are
identical.  In particular `status := some "success"` (return endpoint)
and `status := some "error"` (error endpoint) yield identical final
states and messages. -/
theorem reconcile_ignores_synthesized_status
    (g : GatewayOracle) (tx : Tx) (cr pid iid we s1 s2 : Option String) :
    processNotificationData g tx ⟨cr, pid, iid, s1, we⟩
      = processNotificationData g tx ⟨cr, pid, iid, s2, we⟩ := rfl

/-! ## Claim C9 — `provider_reference` backfill is guarded -/

/-- **C9.** For every transaction whose `provider_reference` is non-empty
when the reconciler runs, the field is left unchanged by the run,
regardless of the `InvoiceId` in the gateway's response. -/
theorem provider_reference_preserved_when_set
    (g : GatewayOracle) (tx : Tx) (nd : NotifData)
    (h : tx.provider_reference ≠ "") :
    (processNotificationData g tx nd).tx.provider_reference = tx.provider_reference := by
  unfold processNotificationData
  split
  · rfl
  · cases hk : statusKey tx nd with
    | none => simp [setError_provider_reference]
    | some kk =>
      obtain ⟨k, kt⟩ := kk
      simp only
      cases hg : g k kt with
      | error e => simp [hg, setError_provider_reference]
      | ok sd =>
        simp only [hg]
        rw [applyTransition_provider_reference, backfill_of_pr_ne tx sd h]

/-- Witness for C9 at a concrete transaction with `provider_reference`
already set and a response carrying a different `InvoiceId`. -/
theorem provider_reference_preserved_when_set_witness :
    (processNotificationData (fun _ _ => Except.ok ⟨some "Paid", some "999", none, []⟩)
      ⟨"R1", "123", "myfatoorah", .pending, ""⟩
      ⟨none, some "P1", none, none, none⟩).tx.provider_reference = "123" :=
  provider_reference_preserved_when_set
    (fun _ _ => Except.ok ⟨some "Paid", some "999", none, []⟩)
    ⟨"R1", "123", "myfatoorah", .pending, ""⟩
    ⟨none, some "P1", none, none, none⟩ (by decide)

/-! ## Claim C10 — invoice-creation response handling -/

/-- **C10.** Invoice creation fails with a validation error exactly when
the `SendPayment` response data lacks a truthy `InvoiceURL`; in that case
the transaction (hence `provider_reference`) is unchanged; and when an
`InvoiceURL` is present but the response carries no truthy `InvoiceId`,
`provider_reference` is set to the empty string. -/
theorem invoice_creation_url_policy (tx : Tx) (rd : SendPaymentData) :
    (exceptIsError (getSpecificProcessingValues tx rd).2 = true
        ↔ pyTruthy rd.InvoiceURL = false)
    ∧ (pyTruthy rd.InvoiceURL = false → (getSpecificProcessingValues tx rd).1 = tx)
    ∧ (pyTruthy rd.InvoiceURL = true → pyTruthy rd.InvoiceId = false →
        (getSpecificProcessingValues tx rd).1.provider_reference = "") := by
  unfold getSpecificProcessingValues
  by_cases h : pyTruthy rd.InvoiceURL = true
  · by_cases hi : pyTruthy rd.InvoiceId = true <;> simp [h, hi, exceptIsError]
  · simp [h, exceptIsError]

/-- Witness for C10: a response with no `InvoiceURL` leaves the
transaction unchanged, and a response with a URL but no `InvoiceId` sets
`provider_reference` to the empty string. -/
theorem invoice_creation_url_policy_witness :
    (getSpecificProcessingValues ⟨"R1", "old", "myfatoorah", .draft, ""⟩
        ⟨none, some "55"⟩).1 = ⟨"R1", "old", "myfatoorah", .draft, ""⟩
    ∧ (getSpecificProcessingValues ⟨"R1", "old", "myfatoorah", .draft, ""⟩
        ⟨some "https://pay", none⟩).1.provider_reference = "" :=
  ⟨(invoice_creation_url_policy ⟨"R1", "old", "myfatoorah", .draft, ""⟩
      ⟨none, some "55"⟩).2.1 (by decide),
    (invoice_creation_url_policy ⟨"R1", "old", "myfatoorah", .draft, ""⟩
      ⟨some "https://pay", none⟩).2.2 (by decide) (by decide)⟩

/-! ## Claim C1 — the status mapping -/

lemma statusDataTransition_eq_claim (sd : StatusData) :
    statusDataTransition sd = claimStatusTransition sd := by
  unfold statusDataTransition claimStatusTransition statusTransition successToken
  cases h : sd.InvoiceTransactions.getLast? <;> simp [h]

/-- **C1.** For every successful `GetPaymentStatus` response, the
reconciler applies exactly one transition, the one prescribed by the
claim's mapping (`claimStatusTransition`): effective status derived
case-insensitively from the last `InvoiceTransactions` entry (falling
back to `InvoiceStatus`), then paid/success-token → done,
pending/initiated → pending, expired/canceled → canceled naming the
observed status, failed → error with the latest entry's `Error` or
`ErrorCode`, anything else → error naming the unrecognized status. -/
theorem reconciler_applies_claim_status_mapping
    (g : GatewayOracle) (tx : Tx) (nd : NotifData) (key keyType : String)
    (sd : StatusData)
    (hcode : tx.provider_code = "myfatoorah")
    (hkey : statusKey tx nd = some (key, keyType))
    (hok : g key keyType = Except.ok sd) :
    (processNotificationData g tx nd).applied = [claimStatusTransition sd] := by
  unfold processNotificationData
  simp [hcode, hkey, hok, statusDataTransition_eq_claim]

/-- Witness for C1 at a concrete `Paid` response reached through the
`paymentId` key. -/
theorem reconciler_applies_claim_status_mapping_witness :
    (processNotificationData (fun _ _ => Except.ok ⟨some "Paid", none, none, []⟩)
        ⟨"R1", "", "myfatoorah", .draft, ""⟩
        ⟨none, some "P1", none, none, none⟩).applied
      = [claimStatusTransition ⟨some "Paid", none, none, []⟩] :=
  reconciler_applies_claim_status_mapping
    (fun _ _ => Except.ok ⟨some "Paid", none, none, []⟩)
    ⟨"R1", "", "myfatoorah", .draft, ""⟩
    ⟨none, some "P1", none, none, none⟩
    "P1" "PaymentId" ⟨some "Paid", none, none, []⟩ rfl (by decide) rfl

/-! ## Claim C5 — the reconciler's error policy -/

/-- **C5.** Every reconciler invocation on a MyFatoorah transaction
applies exactly one state transition (the model is total, so no exception
escapes); when no status-query key is available (neither `paymentId` nor
`InvoiceId`/`provider_reference`) it sets the transaction to error with
the missing-identification message and makes no gateway call; and when
the status call raises, it sets the transaction to error with the generic
"Failed to verify payment status" message after exactly one gateway call,
without retrying. -/
theorem reconciler_total_single_transition
    (g : GatewayOracle) (tx : Tx) (nd : NotifData)
    (hcode : tx.provider_code = "myfatoorah") :
    (processNotificationData g tx nd).applied.length = 1
    ∧ (statusKey tx nd = none →
        (processNotificationData g tx nd).gatewayCalls = 0
        ∧ (processNotificationData g tx nd).applied = [.error missingIdMessage]
        ∧ (processNotificationData g tx nd).tx.state = .error)
    ∧ (∀ key keyType e, statusKey tx nd = some (key, keyType) →
        g key keyType = Except.error e →
        (processNotificationData g tx nd).gatewayCalls = 1
        ∧ (processNotificationData g tx nd).applied = [.error verifyFailedMessage]
        ∧ (processNotificationData g tx nd).tx = setError tx verifyFailedMessage) := by
  refine ⟨?_, ?_, ?_⟩
  · unfold processNotificationData
    rcases hk : statusKey tx nd with _ | ⟨k, kt⟩
    · simp [hcode, hk]
    · rcases hg : g k kt with e | sd <;> simp [hcode, hk, hg]
  · intro hk
    unfold processNotificationData
    simp [hcode, hk, setError_state]
  · intro k kt e hk hg
    unfold processNotificationData
    simp [hcode, hk, hg]

/-- Witness for C5: a timing-out gateway yields the generic verification
failure, and an identifier-free payload yields no gateway call. -/
theorem reconciler_total_single_transition_witness :
    (processNotificationData (fun _ _ => Except.error "timeout")
        ⟨"R1", "", "myfatoorah", .draft, ""⟩
        ⟨none, some "P1", none, none, none⟩).applied
      = [AppliedTx.error verifyFailedMessage]
    ∧ (processNotificationData (fun _ _ => Except.error "timeout")
        ⟨"R1", "", "myfatoorah", .draft, ""⟩
        ⟨none, none, none, none, none⟩).gatewayCalls = 0 :=
  ⟨((reconciler_total_single_transition (fun _ _ => Except.error "timeout")
      ⟨"R1", "", "myfatoorah", .draft, ""⟩
      ⟨none, some "P1", none, none, none⟩ rfl).2.2
      "P1" "PaymentId" "timeout" (by decide) rfl).2.1,
    ((reconciler_total_single_transition (fun _ _ => Except.error "timeout")
      ⟨"R1", "", "myfatoorah", .draft, ""⟩
      ⟨none, none, none, none, none⟩ rfl).2.1 (by decide)).1⟩

/-! ## Claim C2 — the webhook acknowledgment policy -/

/-- **C2.** For every webhook request with a parseable body whose
signature verifies against some candidate provider, the endpoint responds
HTTP 200 — even when event dispatch raises, in which case the message is
"Event received but processing failed"; when no candidate's verification
passes (body parseable, candidate set non-empty) it responds HTTP 401;
and its status code is always below 500. -/
theorem webhook_ack_policy
    (hmacSha256Hex : String → List Nat → String) (providers : List MFProvider)
    (req : WebhookRequest) (dispatch : Except String Unit) :
    (req.jsonOk = true →
      (webhookCandidates providers).any
          (fun p => myfatoorahVerifyWebhookSignature hmacSha256Hex p req.raw_body req.signature)
        = true →
      (myfatoorahWebhook hmacSha256Hex providers req dispatch).1 = 200
      ∧ (∀ e, dispatch = Except.error e →
          (myfatoorahWebhook hmacSha256Hex providers req dispatch).2
            = "Event received but processing failed"))
    ∧ (req.jsonOk = true → webhookCandidates providers ≠ [] →
      (webhookCandidates providers).any
          (fun p => myfatoorahVerifyWebhookSignature hmacSha256Hex p req.raw_body req.signature)
        = false →
      myfatoorahWebhook hmacSha256Hex providers req dispatch = (401, "Invalid signature"))
    ∧ (myfatoorahWebhook hmacSha256Hex providers req dispatch).1 < 500 := by
  refine ⟨?_, ?_, ?_⟩
  · intro hj hany
    have hsome : ((webhookCandidates providers).find?
        (fun p => myfatoorahVerifyWebhookSignature hmacSha256Hex p req.raw_body req.signature)).isSome := by
      rw [List.find?_isSome]
      exact List.any_eq_true.mp hany
    obtain ⟨p, hp⟩ := Option.isSome_iff_exists.mp hsome
    have hemp : (webhookCandidates providers).isEmpty = false := by
      cases hcs : webhookCandidates providers with
      | nil => rw [hcs] at hp; simp at hp
      | cons a l => simp [hcs]
    constructor
    · unfold myfatoorahWebhook
      simp [hj, hemp, hp]
      cases dispatch <;> simp
    · intro e he
      unfold myfatoorahWebhook
      simp [hj, hemp, hp, he]
  · intro hj hne hany
    have hnone : (webhookCandidates providers).find?
        (fun p => myfatoorahVerifyWebhookSignature hmacSha256Hex p req.raw_body req.signature) = none := by
      rw [List.find?_eq_none]
      intro x hx hpx
      have hx2 : (webhookCandidates providers).any
          (fun p => myfatoorahVerifyWebhookSignature hmacSha256Hex p req.raw_body req.signature)
            = true :=
        List.any_eq_true.mpr ⟨x, hx, hpx⟩
      rw [hany] at hx2
      exact Bool.false_ne_true hx2
    have hemp : (webhookCandidates providers).isEmpty = false := by
      cases hcs : webhookCandidates providers with
      | nil => exact absurd hcs hne
      | cons a l => simp [hcs]
    unfold myfatoorahWebhook
    simp [hj, hemp, hnone]
  · unfold myfatoorahWebhook
    by_cases hj : req.jsonOk = true
    · simp only [hj]
      by_cases hemp : (webhookCandidates providers).isEmpty = true
      · simp [hemp]
      · rcases hf : (webhookCandidates providers).find?
            (fun p => myfatoorahVerifyWebhookSignature hmacSha256Hex p req.raw_body req.signature)
            with _ | p
        · simp [hemp, hf]
        · rcases dispatch with e | u <;> simp [hemp, hf]
    · simp [hj]

/-- Witness for C2: with one enabled webhook provider, a correctly signed
request is acknowledged 200 even though dispatch raises, and a wrongly
signed request gets 401. -/
theorem webhook_ack_policy_witness :
    (myfatoorahWebhook (fun s _ => s)
        [⟨"P", "myfatoorah", "enabled", true, some "whsec"⟩]
        ⟨true, [], "whsec"⟩ (Except.error "boom")).1 = 200
    ∧ (myfatoorahWebhook (fun s _ => s)
        [⟨"P", "myfatoorah", "enabled", true, some "whsec"⟩]
        ⟨true, [], "bad"⟩ (Except.ok ())).1 = 401 := by
  constructor
  · exact ((webhook_ack_policy (fun s _ => s)
      [⟨"P", "myfatoorah", "enabled", true, some "whsec"⟩]
      ⟨true, [], "whsec"⟩ (Except.error "boom")).1 rfl (by decide)).1
  · have h := (webhook_ack_policy (fun s _ => s)
      [⟨"P", "myfatoorah", "enabled", true, some "whsec"⟩]
      ⟨true, [], "bad"⟩ (Except.ok ())).2.1 rfl (by decide) (by decide)
    rw [h]

/-! ## Claim C3 — the locator's tier order -/

/-- **C3.** The locator's tiers run in fixed order with the first hit
winning; in particular, for every store containing a transaction whose
`reference` equals the payload's (non-empty) `CustomerReference`, the
locator returns a transaction with that reference without performing any
gateway status call. -/
theorem locator_reference_tier_first
    (store : List Tx) (providers : List MFProvider) (g : LocatorOracle)
    (nd : NotifData) (r : String) (t : Tx)
    (hr : nd.CustomerReference = some r) (hne : r ≠ "")
    (ht : t ∈ store) (htr : t.reference = r) (htc : t.provider_code = "myfatoorah") :
    (getTxFromNotificationData store providers g nd).2 = 0
    ∧ ∃ t2, (getTxFromNotificationData store providers g nd).1 = Except.ok t2
        ∧ t2.reference = r ∧ t2.provider_code = "myfatoorah" := by
  have hp : pyTruthy nd.CustomerReference = true := by simp [hr, pyTruthy, hne]
  have hgd : nd.CustomerReference.getD "" = r := by simp [hr]
  have hsome : (searchRef store r).isSome := by
    unfold searchRef
    rw [List.find?_isSome]
    exact ⟨t, ht, by simp [htr, htc]⟩
  obtain ⟨t2, ht2⟩ := Option.isSome_iff_exists.mp hsome
  have ht2f : List.find? (fun u => u.reference == r && u.provider_code == "myfatoorah") store
      = some t2 := ht2
  have hpred := List.find?_some ht2f
  simp only [Bool.and_eq_true, beq_iff_eq] at hpred
  have h1 : (if pyTruthy nd.CustomerReference
      then searchRef store (nd.CustomerReference.getD "") else none) = some t2 := by
    rw [if_pos hp, hgd, ht2]
  have h2 : getTxFromNotificationData store providers g nd = (Except.ok t2, 0) := by
    unfold getTxFromNotificationData
    simp [h1]
  rw [h2]
  exact ⟨rfl, t2, rfl, hpred.1, hpred.2⟩

/-- Witness for C3: a one-element store hit by `CustomerReference`, with
an oracle that would error if it were ever consulted. -/
theorem locator_reference_tier_first_witness :
    (getTxFromNotificationData [⟨"R7", "", "myfatoorah", .draft, ""⟩]
        [⟨"p1", "myfatoorah", "enabled", true, some "s"⟩]
        (fun _ _ => Except.error "no network")
        ⟨some "R7", some "P9", none, none, none⟩).2 = 0 :=
  (locator_reference_tier_first [⟨"R7", "", "myfatoorah", .draft, ""⟩]
    [⟨"p1", "myfatoorah", "enabled", true, some "s"⟩]
    (fun _ _ => Except.error "no network")
    ⟨some "R7", some "P9", none, none, none⟩ "R7"
    ⟨"R7", "", "myfatoorah", .draft, ""⟩
    rfl (by decide) (by decide) rfl rfl).1

/-! ## Claim C4 — when the tier-3 round trip happens -/

/-- **C4 counterexample.** The claim says the gateway round trip happens
only when `paymentId` is the *only* identifier present; but with
`CustomerReference` present in the payload (just unmatched in the store)
and `paymentId` present, the locator still makes a gateway call. -/
theorem locator_gateway_call_despite_reference_cex :
    ¬ ((getTxFromNotificationData []
        [⟨"p1", "myfatoorah", "enabled", true, some "s"⟩]
        (fun _ _ => Except.error "down")
        ⟨some "R", some "P", none, none, none⟩).2 = 0) := by decide

/-- **C4 (amended).** The locator performs its tier-3 gateway round trip
only when `paymentId` is truthy and neither tier 1 (`reference` =
`CustomerReference`) nor tier 2 (`provider_reference` = `InvoiceId`)
matched a stored transaction: whenever a gateway call was made, the
payload's `paymentId` is truthy and any present `CustomerReference` /
`InvoiceId` matched nothing in the store. -/
theorem locator_gateway_call_requires_unmatched_identifiers
    (store : List Tx) (providers : List MFProvider) (g : LocatorOracle)
    (nd : NotifData)
    (h : (getTxFromNotificationData store providers g nd).2 ≠ 0) :
    pyTruthy nd.paymentId = true
    ∧ (pyTruthy nd.CustomerReference = true →
        searchRef store (nd.CustomerReference.getD "") = none)
    ∧ (pyTruthy nd.InvoiceId = true →
        searchProvRef store (nd.InvoiceId.getD "") = none) := by
  unfold getTxFromNotificationData at h
  rcases ht1 : (if pyTruthy nd.CustomerReference
      then searchRef store (nd.CustomerReference.getD "") else none) with _ | t
  · rcases ht2 : (if pyTruthy nd.InvoiceId
        then searchProvRef store (nd.InvoiceId.getD "") else none) with _ | t
    · by_cases hpid : pyTruthy nd.paymentId = true
      · refine ⟨hpid, ?_, ?_⟩
        · intro hcr
          rw [if_pos hcr] at ht1
          exact ht1
        · intro hii
          rw [if_pos hii] at ht2
          exact ht2
      · exfalso
        apply h
        simp only [ht1, ht2]
        simp [hpid]
    · exfalso
      apply h
      simp only [ht1, ht2]
  · exfalso
    apply h
    simp only [ht1]

/-- Witness for the amended C4, at the counterexample's input. -/
theorem locator_gateway_call_requires_unmatched_identifiers_witness :
    pyTruthy (NotifData.paymentId ⟨some "R", some "P", none, none, none⟩) = true
    ∧ (pyTruthy (NotifData.CustomerReference ⟨some "R", some "P", none, none, none⟩) = true →
        searchRef []
          ((NotifData.CustomerReference ⟨some "R", some "P", none, none, none⟩).getD "") = none)
    ∧ (pyTruthy (NotifData.InvoiceId ⟨some "R", some "P", none, none, none⟩) = true →
        searchProvRef []
          ((NotifData.InvoiceId ⟨some "R", some "P", none, none, none⟩).getD "") = none) :=
  locator_gateway_call_requires_unmatched_identifiers []
    [⟨"p1", "myfatoorah", "enabled", true, some "s"⟩]
    (fun _ _ => Except.error "down")
    ⟨some "R", some "P", none, none, none⟩ (by decide)

/-! ## Claim C7 — idempotent reconciliation -/

/-- **C7.** Re-running the reconciler on the transaction it just produced,
with the same payload and the same gateway oracle, leaves the transaction
unchanged (the guarded lifecycle primitives make the repeated transition a
no-op); and on the stubbed response `{InvoiceStatus: "Paid",
InvoiceTransactions: []}` a single run transitions the transaction to
`done` via exactly one `setDone` invocation. -/
theorem reconcile_idempotent :
    (∀ (g : GatewayOracle) (tx : Tx) (nd : NotifData),
      (processNotificationData g ((processNotificationData g tx nd).tx) nd).tx
        = (processNotificationData g tx nd).tx)
    ∧ (processNotificationData (fun _ _ => Except.ok ⟨some "Paid", none, none, []⟩)
        ⟨"R1", "", "myfatoorah", .pending, ""⟩
        ⟨none, some "P1", none, none, none⟩).tx.state = .done
    ∧ (processNotificationData (fun _ _ => Except.ok ⟨some "Paid", none, none, []⟩)
        ⟨"R1", "", "myfatoorah", .pending, ""⟩
        ⟨none, some "P1", none, none, none⟩).applied = [AppliedTx.done] := by
  refine ⟨?_, by rfl, by rfl⟩
  intro g tx nd
  by_cases hc : tx.provider_code = "myfatoorah"
  · cases hk : statusKey tx nd with
    | none =>
      have h1 : processNotificationData g tx nd
          = ⟨setError tx missingIdMessage, [.error missingIdMessage], 0⟩ := by
        unfold processNotificationData
        simp [hc, hk]
      rw [h1]
      have hc2 : (setError tx missingIdMessage).provider_code = "myfatoorah" := by
        rw [setError_provider_code]; exact hc
      have hk2 : statusKey (setError tx missingIdMessage) nd = none := by
        rw [statusKey_congr tx _ nd (setError_provider_reference _ _)]
        exact hk
      show (processNotificationData g (setError tx missingIdMessage) nd).tx = _
      unfold processNotificationData
      simp [hc2, hk2, setError_idem]
    | some kk =>
      obtain ⟨k, kt⟩ := kk
      cases hg : g k kt with
      | error e =>
        have h1 : processNotificationData g tx nd
            = ⟨setError tx verifyFailedMessage, [.error verifyFailedMessage], 1⟩ := by
          unfold processNotificationData
          simp [hc, hk, hg]
        rw [h1]
        have hc2 : (setError tx verifyFailedMessage).provider_code = "myfatoorah" := by
          rw [setError_provider_code]; exact hc
        have hk2 : statusKey (setError tx verifyFailedMessage) nd = some (k, kt) := by
          rw [statusKey_congr tx _ nd (setError_provider_reference _ _)]
          exact hk
        show (processNotificationData g (setError tx verifyFailedMessage) nd).tx = _
        unfold processNotificationData
        simp [hc2, hk2, hg, setError_idem]
      | ok sd =>
        have h1 : processNotificationData g tx nd
            = ⟨applyTransition (backfillProviderReference tx sd) (statusDataTransition sd),
                [statusDataTransition sd], 1⟩ := by
          unfold processNotificationData
          simp [hc, hk, hg]
        rw [h1]
        have hc2 : (applyTransition (backfillProviderReference tx sd)
            (statusDataTransition sd)).provider_code = "myfatoorah" := by
          rw [applyTransition_provider_code, backfill_provider_code]; exact hc
        have hk2 : statusKey (applyTransition (backfillProviderReference tx sd)
            (statusDataTransition sd)) nd = some (k, kt) := by
          by_cases hpid : pyTruthy nd.paymentId = true
          · have e1 : statusKey tx nd = some (nd.paymentId.getD "", "PaymentId") := by
              simp [statusKey, hpid]
            rw [e1] at hk
            simp [statusKey, hpid, hk]
          · by_cases hiid : pyTruthy nd.InvoiceId = true
            · have e0 : ∀ x, pyOrOpt nd.InvoiceId x = nd.InvoiceId.getD "" :=
                fun x => pyOrOpt_of_truthy hiid x
              have e1 : statusKey (applyTransition (backfillProviderReference tx sd)
                  (statusDataTransition sd)) nd = statusKey tx nd := by
                simp [statusKey, hpid, e0]
              rw [e1]
              exact hk
            · have e0 : ∀ x, pyOrOpt nd.InvoiceId x = x := by
                intro x
                cases hii : nd.InvoiceId with
                | none => simp [pyOrOpt, pyOr]
                | some s =>
                  have hs : s = "" := by
                    rw [hii] at hiid
                    simpa [pyTruthy] using hiid
                  simp [pyOrOpt, pyOr, hs]
              have hpr : tx.provider_reference ≠ "" := by
                intro hpr0
                rw [statusKey] at hk
                simp [hpid, e0, hpr0] at hk
              have hbf : backfillProviderReference tx sd = tx :=
                backfill_of_pr_ne tx sd hpr
              have e1 : (applyTransition (backfillProviderReference tx sd)
                  (statusDataTransition sd)).provider_reference = tx.provider_reference := by
                rw [applyTransition_provider_reference, hbf]
              rw [statusKey_congr tx _ nd e1]
              exact hk
        show (processNotificationData g (applyTransition (backfillProviderReference tx sd)
          (statusDataTransition sd)) nd).tx = _
        unfold processNotificationData
        simp [hc2, hk2, hg, backfill_after, applyTransition_idem]
  · have h1 : processNotificationData g tx nd = ⟨tx, [], 0⟩ := by
      unfold processNotificationData
      rw [if_pos hc]
    simp [h1]

end MyFatoorah
